import Mathlib

/-!
Verification of the natural-language specification of the `visual-flow`
administrative scripts against their source.

The repository consists of seven standalone Python scripts under
`src/scripts/` that shell out to the `gh` command-line client (and its
GraphQL passthrough) to create milestones, epics and issues and to link
them into a parent/child hierarchy.  This file gives a shallow embedding
of those scripts:

* every Python value that flows through the scripts is a `JVal`
  (`None`, booleans, integers, strings, JSON arrays and objects);
* every external `gh` invocation is one step of a `Py` computation: the
  command (argument list plus optional stdin text) is recorded in a
  trace, and the outcome (exit code, whether stdout is empty, the parse
  of stdout, stderr) is supplied by a `World`, a function from the call
  counter to outcomes — this quantifies over every possible sequence of
  external-call outcomes;
* a Python exception is an `Except`-style error value of type `PyExc`
  threaded by the `Py` monad; an uncaught exception is a run whose
  result is `.error e`;
* the only tracker state the claims need — issue bodies rewritten by
  `gh issue edit -b -`, and the parent/child relation established by the
  `addSubIssue` GraphQL mutation — is modelled explicitly (the former in
  the `St.bodies` field, the latter by the pure `linkingPass` model).

Each script is translated function by function; straight-line repetition
over literal catalogs in the Python source is rendered as structural
recursion over a catalog parameter, so that theorems quantify over the
catalog (the concrete literal data of the source is one instance).
-/

/-- A JSON / Python value as the scripts manipulate them: `null` stands for
Python `None`, and objects keep their fields as an association list. -/
inductive JVal where
  | null : JVal
  | bool : Bool → JVal
  | num : Int → JVal
  | str : String → JVal
  | arr : List JVal → JVal
  | obj : List (String × JVal) → JVal

/-- The Python exceptions the scripts can raise. -/
inductive PyExc where
  | nameError : PyExc
  | jsonDecodeError : PyExc
  | keyError : PyExc
  | typeError : PyExc
  | attributeError : PyExc
  deriving DecidableEq, Repr

/-- Outcome of one external `gh` invocation, supplied by the environment:
exit code, whether the (stripped) stdout text is empty, the result of
parsing stdout as JSON (`none` when `json.loads` would raise), and the
stderr text. -/
structure CallOutcome where
  exitCode : Int
  stdoutEmpty : Bool
  stdout : Option JVal
  stderr : String

/-- The environment: outcome of the n-th external invocation of a run. -/
def World : Type := Nat → CallOutcome

/-- State threaded through a script run: the call counter, the trace of
issued commands (argument list, optional stdin text), the lines printed
to standard output, and the external tracker issue bodies (used by the
body-edit modelling). -/
structure St where
  idx : Nat
  trace : List (List String × Option String)
  log : List String
  bodies : Nat → Option String

/-- The script monad: state plus Python exceptions. -/
def Py (α : Type) : Type := St → Except PyExc α × St

def Py.pureP {α : Type} (a : α) : Py α := fun s => (.ok a, s)

def Py.bindP {α β : Type} (x : Py α) (f : α → Py β) : Py β := fun s =>
  match x s with
  | (.ok a, s') => f a s'
  | (.error e, s') => (.error e, s')

instance : Monad Py where
  pure := Py.pureP
  bind := Py.bindP

/-- Raise a Python exception. -/
def pyThrow {α : Type} (e : PyExc) : Py α := fun s => (.error e, s)

/-- A Python `try`/`except` block: exceptions in the body are given to the
handler. -/
def pyTry {α : Type} (x : Py α) (h : PyExc → Py α) : Py α := fun s =>
  match x s with
  | (.error e, s') => h e s'
  | ok => ok

/-- Run a possibly-raising pure computation inside `Py`. -/
def liftE {α : Type} (e : Except PyExc α) : Py α := fun s => (e, s)

/-- Python `print`: append one line to the log. -/
def output (line : String) : Py Unit := fun s =>
  (.ok (), { s with log := s.log ++ [line] })

/-- A block of consecutive `print` lines. -/
def outputs : List String → Py Unit
  | [] => pure ()
  | l :: ls => do
    output l
    outputs ls

/-- One external invocation: record the command, consume the next outcome
from the world. -/
def call (w : World) (cmd : List String) (inp : Option String) : Py CallOutcome := fun s =>
  (.ok (w s.idx), { s with idx := s.idx + 1, trace := s.trace ++ [(cmd, inp)] })

/-- Overwrite the stored body of issue `n` with `v`. -/
def updBodies (b : Nat → Option String) (n : Nat) (v : String) : Nat → Option String :=
  fun m => if m = n then some v else b m

/-- Modelled from the spec: `editIssueBody(issueId, newBody)` "overwrites
the full body ... no server-side patch semantics are available".  The
tracker behaviour of `gh issue edit <n> -b -` is not code of this
repository; per the spec, a successful call replaces the whole stored
body of the target issue with exactly the stdin text. -/
def callEdit (w : World) (cmd : List String) (inp : String) (target : Nat) : Py CallOutcome := fun s =>
  (.ok (w s.idx),
   { s with
     idx := s.idx + 1,
     trace := s.trace ++ [(cmd, some inp)],
     bodies := if (w s.idx).exitCode == 0 then updBodies s.bodies target inp else s.bodies })

/-- Python `json.loads` on the abstracted stdout: raises
`json.JSONDecodeError` exactly when the text is not valid JSON. -/
def jsonLoads : Option JVal → Except PyExc JVal
  | none => .error .jsonDecodeError
  | some v => .ok v

/-- Python `d[k]` subscripting: `KeyError` on a missing key, `TypeError`
when the value is not a dict. -/
def JVal.index (v : JVal) (k : String) : Except PyExc JVal :=
  match v with
  | .obj fs =>
    match fs.lookup k with
    | some x => .ok x
    | none => .error .keyError
  | _ => .error .typeError

/-- Python `d.get(k, default)`: `AttributeError` when the value is not a
dict. -/
def JVal.getD (v : JVal) (k : String) (d : JVal) : Except PyExc JVal :=
  match v with
  | .obj fs => .ok ((fs.lookup k).getD d)
  | _ => .error .attributeError

/-- Python truthiness of the values the scripts test with `if x:`. -/
def JVal.truthy : JVal → Bool
  | .null => false
  | .bool b => b
  | .num n => !(n == 0)
  | .str s => !s.isEmpty
  | .arr xs => !xs.isEmpty
  | .obj fs => !fs.isEmpty

/-- Python `f"{v}"` stringification for the values the scripts actually
format (numbers, strings, `None`, booleans); composite values are
abbreviated, the scripts never format them. -/
def pyStr : JVal → String
  | .null => "None"
  | .bool true => "True"
  | .bool false => "False"
  | .num n => toString n
  | .str s => s
  | .arr _ => "[...]"
  | .obj _ => "\x7b...\x7d"

/-- Python `v == s` for a string literal `s`: true only for an equal
string. -/
def jvalEqStr : JVal → String → Bool
  | .str s, t => s == t
  | _, _ => false

/-- Python iteration `for m in v`: lists yield elements, dicts yield their
keys, strings yield characters, anything else raises `TypeError`. -/
def pyIter : JVal → Except PyExc (List JVal)
  | .arr xs => .ok xs
  | .obj fs => .ok (fs.map (fun f => .str f.1))
  | .str s => .ok (s.data.map (fun c => .str (String.mk [c])))
  | _ => .error .typeError

/-- Python slicing `s[:n]`. -/
def strTake (s : String) (n : Nat) : String := String.mk (s.data.take n)

/-- Exception text used when a handler prints the caught exception. -/
def excText : PyExc → String
  | .nameError => "NameError"
  | .jsonDecodeError => "JSONDecodeError"
  | .keyError => "KeyError"
  | .typeError => "TypeError"
  | .attributeError => "AttributeError"

/-- `p` is a prefix of `l` (on characters). -/
def prefixOfL : List Char → List Char → Bool
  | [], _ => true
  | _ :: _, [] => false
  | a :: as, b :: bs => a == b && prefixOfL as bs

/-- `p` occurs as a contiguous sublist of `l`. -/
def subListOf (p l : List Char) : Bool :=
  match l with
  | [] => prefixOfL p []
  | _ :: t => prefixOfL p l || subListOf p t

/-- The text `p` occurs (contiguously) inside the string `s`. -/
def containsStr (s p : String) : Bool := subListOf p.data s.data

/-- Strip the prefix `pre` from `l`, or fail. -/
def dropPre : List Char → List Char → Option (List Char)
  | [], l => some l
  | _ :: _, [] => none
  | a :: as, b :: bs => if a == b then dropPre as bs else none

/-- The `owner/name` repository coordinate embedded in a `/repos/...` path
argument, when the argument is such a path. -/
def repoOfPath (a : String) : Option String :=
  match dropPre "/repos/".data a.data with
  | none => none
  | some rest =>
    let owner := rest.takeWhile (fun c => c != '/')
    let rest2 := (rest.drop owner.length).drop 1
    let nm := rest2.takeWhile (fun c => c != '/')
    if owner.isEmpty || nm.isEmpty then none
    else some (String.mk (owner ++ '/' :: nm))

/-- The repository coordinate an external invocation explicitly addresses:
either a `/repos/<owner>/<name>/...` path argument or the value of a
`--repo` flag; `none` when the command names no repository (label edits,
`gh issue view`, the GraphQL mutation operating on global ids). -/
def addressedCoord : List String → Option String
  | [] => none
  | a :: rest =>
    match repoOfPath a with
    | some r => some r
    | none => if a = "--repo" then rest.head? else addressedCoord rest

/-- The initial state of a run. -/
def st0 : St := { idx := 0, trace := [], log := [], bodies := fun _ => none }

/-!  ### src/scripts/create_epics.py  -/

namespace createEpics

/-- Line 5: `REPO = "goblinsan/vizail"`. -/
def REPO : String := "goblinsan/vizail"

/-- The issue-creation command of `create_epic` (lines 8-14). -/
def createEpicCmd (title body : String) : List String :=
  ["gh", "api", "-X", "POST", "/repos/" ++ REPO ++ "/issues",
   "-f", "title=" ++ title, "-f", "body=" ++ body]

/-- The label-addition command of the loop at lines 26-28; it passes no
repository coordinate. -/
def addLabelCmd (num : JVal) (label : String) : List String :=
  ["gh", "issue", "edit", pyStr num, "--add-label", label]

/-- The label loop at lines 26-28: one fire-and-forget call per label,
results ignored. -/
def addLabelsLoop (w : World) (num : JVal) : List String → Py Unit
  | [] => pure ()
  | l :: ls => do
    let _ ← call w (addLabelCmd num l) none
    addLabelsLoop w num ls

/-- `create_epic(title, body, *labels)` (lines 7-32): on non-zero exit log
and return `None`; otherwise parse stdout inside `try`, print the number,
apply each label by a separate call, and return the number; any parse
exception is caught and `None` returned. -/
def create_epic (w : World) (title body : String) (labels : List String) : Py JVal := do
  let result ← call w (createEpicCmd title body) none
  if result.exitCode != 0 then
    output ("  ❌ " ++ title ++ ": " ++ strTake result.stderr 80)
    pure .null
  else
    pyTry
      (do
        let data ← liftE (jsonLoads result.stdout)
        let num ← liftE (data.getD "number" .null)
        output ("  ✅ Epic #" ++ pyStr num ++ ": " ++ strTake title 40)
        addLabelsLoop w num labels
        pure num)
      (fun e => do
        output ("  ❌ Parse error: " ++ excText e)
        pure .null)

/-- One epic entry of the literal `epics` table (lines 36-195). -/
structure EpicSpec where
  title : String
  body : String
  labels : List String

/-- The six straight-line `create_epic` calls of the `epics` table,
rendered as recursion over the catalog. -/
def epicLoop (w : World) : List EpicSpec → Py Unit
  | [] => pure ()
  | e :: es => do
    let _ ← create_epic w e.title e.body e.labels
    epicLoop w es

/-- The whole script (lines 34-204): banner, the `epics` table, closing
banner and the final `Visit:` line. -/
def script (w : World) (catalog : List EpicSpec) : Py Unit := do
  output "Creating Epic Issues...\n"
  epicLoop w catalog
  outputs
    ["\n" ++ String.mk (List.replicate 60 '='),
     "✅ Epic issues created!",
     String.mk (List.replicate 60 '='),
     "\nDependency chain:",
     "  Phase 0 (epic) → Phase 1 (epic) → Phase 2 (epic) → Phase 3 (epic) → Phase 4 (epic)",
     "                                      ↓",
     "                              Phase 5 (epic) [parallel]",
     "\nVisit: https://github.com/" ++ REPO ++ "/issues"]

end createEpics

/-!  ### src/scripts/create_github_issues.py  -/

namespace createGithubIssues

/-- Line 5: `REPO = "goblinsan/visual-flow"`. -/
def REPO : String := "goblinsan/visual-flow"

/-- `run_gh(*args)` (lines 7-13): one `gh` invocation; the outcome carries
stripped stdout/stderr and the exit code. -/
def run_gh (w : World) (args : List String) : Py CallOutcome :=
  call w ("gh" :: args) none

/-- The milestone-listing command with `-q` filters (first call of
`create_milestone`, lines 17-20). -/
def milestoneListCmdQ : List String :=
  ["api", "/repos/" ++ REPO ++ "/milestones", "-q", ".[].number", "-q", ".[].title"]

/-- The plain milestone-listing command (second call, lines 22-24). -/
def milestoneListCmd : List String :=
  ["api", "/repos/" ++ REPO ++ "/milestones"]

/-- The scan over the parsed milestone list (lines 27-30): the first entry
whose `title` matches is printed and its `number` returned. -/
def findMilestoneLoop (title : String) : List JVal → Py JVal
  | [] => pure .null
  | m :: ms => do
    let t ← liftE (m.getD "title" .null)
    if jvalEqStr t title then
      let n ← liftE (m.index "number")
      output ("📌 Using existing milestone: " ++ title ++ " (#" ++ pyStr n ++ ")")
      pure n
    else
      findMilestoneLoop title ms

/-- `create_milestone(title, description)` (lines 15-33): list existing
milestones twice, parse the second output inside `try` (a bare `except`
swallows every exception), scan for the matching title; `None` when
nothing matches or anything raises. -/
def create_milestone (w : World) (title desc : String) : Py JVal := do
  let _ ← run_gh w milestoneListCmdQ
  let r2 ← run_gh w milestoneListCmd
  pyTry
    (do
      let milestones ← liftE (jsonLoads r2.stdout)
      let ms ← liftE (pyIter milestones)
      findMilestoneLoop title ms)
    (fun _ => pure .null)

/-- The issue-creation command of `create_issue` (lines 37-44): the
milestone flag is appended only when `milestone_num` is truthy. -/
def createIssueCmdC (title body : String) (mnum : JVal) : List String :=
  ["api", "-X", "POST", "/repos/" ++ REPO ++ "/issues",
   "-f", "title=" ++ title, "-f", "body=" ++ body]
  ++ (if mnum.truthy then ["-f", "milestone=" ++ pyStr mnum] else [])

/-- The label loop of `create_issue` (lines 56-59): one call per label via
`run_gh`, result ignored. -/
def cgiLabelLoop (w : World) (num : JVal) : List String → Py Unit
  | [] => pure ()
  | l :: ls => do
    let _ ← run_gh w ["issue", "edit", pyStr num, "--add-label", l]
    cgiLabelLoop w num ls

/-- `create_issue(title, body, milestone_num, *labels)` (lines 35-63):
non-zero exit logs and returns `None`; otherwise stdout is parsed inside
`try` (bare `except` returns `None`), the number printed, labels applied
one by one, and the number returned. -/
def create_issue (w : World) (title body : String) (mnum : JVal) (labels : List String) : Py JVal := do
  output ("    📋 Creating issue: " ++ strTake title 50 ++ "...")
  let r ← run_gh w (createIssueCmdC title body mnum)
  if r.exitCode != 0 then
    output ("    Error: " ++ strTake r.stderr 80)
    pure .null
  else
    pyTry
      (do
        let data ← liftE (jsonLoads r.stdout)
        let num ← liftE (data.getD "number" .null)
        output ("    ✅ Issue #" ++ pyStr num)
        if !labels.isEmpty then
          cgiLabelLoop w num labels
        pure num)
      (fun _ => pure .null)

/-- One issue of a phase block. -/
structure IssueSpec where
  title : String
  body : String
  labels : List String

/-- One phase block of the script (header line, milestone title and
description, issues). -/
structure PhaseSpec where
  header : String
  title : String
  desc : String
  issues : List IssueSpec

/-- The per-phase issue calls (the `create_issue(...)` lines guarded by
`if mN:`). -/
def issuesLoop (w : World) (mnum : JVal) : List IssueSpec → Py Unit
  | [] => pure ()
  | i :: rest => do
    let _ ← create_issue w i.title i.body mnum i.labels
    issuesLoop w mnum rest

/-- The six straight-line phase blocks (lines 65-120), rendered as
recursion over the catalog: print the header, find the milestone, and
create the issues only when the milestone number is truthy. -/
def phaseLoop (w : World) : List PhaseSpec → Py Unit
  | [] => pure ()
  | ph :: rest => do
    output ("\n=== " ++ ph.header ++ " ===")
    let m ← create_milestone w ph.title ph.desc
    if m.truthy then
      issuesLoop w m ph.issues
    phaseLoop w rest

/-- The whole script (lines 65-124). -/
def script (w : World) (catalog : List PhaseSpec) : Py Unit := do
  phaseLoop w catalog
  outputs
    ["\n" ++ String.mk (List.replicate 60 '='),
     "✨ Done! All milestones and issues created.",
     "📊 Visit: https://github.com/goblinsan/visual-flow/issues"]

end createGithubIssues

/-!  ### src/scripts/create_milestones_and_issues.py  -/

namespace cmai

/-- Line 10: `REPO_OWNER = "goblinsan"`. -/
def REPO_OWNER : String := "goblinsan"

/-- Line 11: `REPO_NAME = "visual-flow"`. -/
def REPO_NAME : String := "visual-flow"

/-- The module binds `REPO_OWNER` and `REPO_NAME` (lines 10-11) but never
the name `REPO` used at lines 690, 742 and 773; evaluating `REPO` raises
`NameError`. -/
def lookupREPO : Except PyExc String := .error .nameError

/-- The f-string body of `create_epic` (lines 714-736) references the name
`issue_number` (lines 734-735), which is bound nowhere in the module;
evaluating the f-string raises `NameError`. -/
def lookupIssueNumber : Except PyExc String := .error .nameError

/-- `run_gh_command(cmd)` (lines 664-680): run `["gh"] + cmd`; on non-zero
exit print the error and return `None`, otherwise return the stripped
stdout (abstracted as its emptiness plus its JSON parse). -/
def run_gh_command (w : World) (cmd : List String) : Py (Option (Bool × Option JVal)) := do
  let r ← call w ("gh" :: cmd) none
  if r.exitCode != 0 then
    output ("Error running command: " ++ String.intercalate " " cmd)
    output ("stderr: " ++ r.stderr)
    pure none
  else
    pure (some (r.stdoutEmpty, r.stdout))

/-- The shared tail of the three creators: `if output: try parse / except
log-and-None else None` (for example lines 697-708).  `label` names the
entity in the parse-failure message. -/
def parseNumberOut (label : String) (okMsg : JVal → String) (out : Option (Bool × Option JVal)) : Py JVal :=
  match out with
  | some (se, p) =>
    if se then pure .null
    else
      pyTry
        (do
          let result ← liftE (jsonLoads p)
          let n ← liftE (result.getD "number" .null)
          output (okMsg n)
          pure n)
        (fun _ => do
          output ("⚠️  Could not parse " ++ label ++ " response")
          pure .null)
  | none => pure .null

/-- `create_milestone(title, description, duration)` (lines 682-708): the
command list at lines 686-695 evaluates the unbound name `REPO`, so every
call raises `NameError` after printing the progress line and before any
external invocation. -/
def create_milestone (w : World) (title desc dur : String) : Py JVal := do
  output ("📌 Creating milestone: " ++ title)
  let repo ← liftE lookupREPO
  let out ← run_gh_command w
    ["milestone", "create", "--repo", repo, "--title", title,
     "--description", desc ++ "\n\nEstimated Duration: " ++ dur]
  parseNumberOut "milestone" (fun n => "✅ Created milestone #" ++ pyStr n ++ ": " ++ title) out

/-- The f-string epic body of lines 714-736; building it evaluates the
unbound `issue_number`. -/
def epicBodyText (mnum : JVal) (inum : String) : String :=
  "## Epic Overview\n\nThis Epic is part of Milestone: " ++ pyStr mnum ++
  "\n\n## Goals\n\n- [ ] Implement all related issues\n- [ ] All related Issues are resolved\n" ++
  "- [ ] Tests pass\n- [ ] Documentation updated\n\n## Acceptance Criteria\n\n" ++
  "- [ ] All planned tasks completed\n- [ ] Tests pass\n- [ ] Documentation updated\n\n---\n\n" ++
  "**To link issues to this Epic:**\nAdd a comment on the Issue with: `Part of #" ++ inum ++
  "`\nOr reference in issue body: `Relates to #" ++ inum ++ "`\n"

/-- `create_epic(milestone_num, title)` (lines 710-762): building the body
f-string evaluates the unbound `issue_number` (and the command list would
evaluate the unbound `REPO`), so every call raises `NameError` after the
progress line and before any external invocation. -/
def create_epic (w : World) (mnum : JVal) (title : String) : Py JVal := do
  output ("  📋 Creating epic: " ++ title)
  let inum ← liftE lookupIssueNumber
  let body := epicBodyText mnum inum
  let repo ← liftE lookupREPO
  let out ← run_gh_command w
    ["issue", "create", "--repo", repo,
     "--title", "[" ++ pyStr mnum ++ "] Epic: " ++ title,
     "--body", body, "--label", "Epic", "--milestone", pyStr mnum]
  parseNumberOut "epic" (fun n => "✅ Created epic #" ++ pyStr n ++ ": " ++ title) out

/-- The full body of `create_issue` (line 767): the epic number appended as
a trailing reference. -/
def issueFullBody (body : String) (epicNum : JVal) : String :=
  body ++ "\n\n---\n\nPart of Epic #" ++ pyStr epicNum

/-- `create_issue(milestone_num, epic_num, title, body)` (lines 764-791):
builds the full body, then the command list evaluates the unbound `REPO`
and raises `NameError` before any external invocation. -/
def create_issue (w : World) (mnum epicNum : JVal) (title body : String) : Py JVal := do
  let full_body := issueFullBody body epicNum
  let repo ← liftE lookupREPO
  let out ← run_gh_command w
    ["issue", "create", "--repo", repo, "--title", title,
     "--body", full_body, "--milestone", pyStr mnum]
  parseNumberOut "issue" (fun n => "✅ Created issue #" ++ pyStr n ++ ": " ++ title) out

/-- One phase of the `PHASES` literal (lines 14-662): name, description,
duration, and the issue (title, body) pairs. -/
structure CmaiPhase where
  pname : String
  desc : String
  duration : String
  issues : List (String × String)

/-- `phase_name.replace("Phase X: ", "").replace("Phase ", "")`
(line 813). -/
def shortTitle (s : String) : String :=
  (s.replace "Phase X: " "").replace "Phase " ""

/-- The inner issue loop of `main` (lines 820-828). -/
def issuesLoopC (w : World) (mnum epicNum : JVal) : List (String × String) → Py Unit
  | [] => pure ()
  | i :: rest => do
    let inum ← create_issue w mnum epicNum i.1 i.2
    if !inum.truthy then
      output ("⚠️  Failed to create issue: " ++ i.1)
    issuesLoopC w mnum epicNum rest

/-- The phase loop of `main` (lines 797-828): milestone first; if falsy,
log and continue with the next phase; else the epic; if falsy, log and
continue; else the issues. -/
def phasesLoopC (w : World) : List CmaiPhase → Py Unit
  | [] => pure ()
  | ph :: rest => do
    output ("\n" ++ ph.pname)
    output (String.mk (List.replicate 60 '-'))
    let mnum ← create_milestone w ph.pname ph.desc ph.duration
    if !mnum.truthy then
      output ("❌ Failed to create milestone for " ++ ph.pname)
    else
      let epicNum ← create_epic w mnum (shortTitle ph.pname)
      if !epicNum.truthy then
        output ("❌ Failed to create epic for " ++ ph.pname)
      else
        issuesLoopC w mnum epicNum ph.issues
    phasesLoopC w rest

/-- `main()` (lines 793-832), over the phase catalog. -/
def main (w : World) (phases : List CmaiPhase) : Py Unit := do
  output "🚀 Creating GitHub Milestones, Epics, and Issues"
  output (String.mk (List.replicate 60 '='))
  phasesLoopC w phases
  output ("\n" ++ String.mk (List.replicate 60 '='))
  output "✨ Done! All milestones, epics, and issues created."
  output "📊 Visit the Issues tab to see your roadmap!"

end cmai

/-!  ### src/scripts/link_child_to_parent.py  -/

namespace lctp

/-- `get_issue_body(issue_num)` (lines 5-14): on non-zero exit return the
empty string; on zero exit parse stdout — `json.loads` is not wrapped, so
malformed output raises an uncaught exception — and return
`data.get("body", "")`. -/
def get_issue_body (w : World) (n : Nat) : Py JVal := do
  let r ← call w ["gh", "issue", "view", toString n, "--json", "body"] none
  if r.exitCode == 0 then
    let data ← liftE (jsonLoads r.stdout)
    let b ← liftE (data.getD "body" (.str ""))
    pure b
  else
    pure (.str "")

/-- The body built at line 17:
`f"**Parent Epic:** #{parent_epic}\n\n{body}"`. -/
def newBodyStr (parentEpic : Nat) (body : JVal) : String :=
  "**Parent Epic:** #" ++ toString parentEpic ++ "\n\n" ++ pyStr body

/-- `update_issue_body(issue_num, parent_epic, body)` (lines 16-27): build
the new body, pipe it to `gh issue edit <n> -b -`, and log the outcome. -/
def update_issue_body (w : World) (n : Nat) (parentEpic : Nat) (body : JVal) : Py Unit := do
  let newBody := newBodyStr parentEpic body
  let r ← callEdit w ["gh", "issue", "edit", toString n, "-b", "-"] newBody n
  if r.exitCode == 0 then
    output ("  Updated #" ++ toString n)
  else
    output ("  ERROR updating #" ++ toString n ++ ": " ++ r.stderr)

/-- The loop body at lines 42-43: fetch the current body, then rewrite. -/
def link_child_step (w : World) (epic n : Nat) : Py Unit := do
  let b ← get_issue_body w n
  update_issue_body w n epic b

/-- The inner loop over a phase entry (lines 41-43). -/
def childLoop (w : World) (epic : Nat) : List Nat → Py Unit
  | [] => pure ()
  | n :: ns => do
    link_child_step w epic n
    childLoop w epic ns

/-- The outer loop over `phase_map` (lines 39-43). -/
def phaseLoopL (w : World) : List (Nat × List Nat) → Py Unit
  | [] => pure ()
  | e :: es => do
    output ("Linking child issues to epic #" ++ toString e.1 ++ "...")
    childLoop w e.1 e.2
    phaseLoopL w es

/-- The `phase_map` literal (lines 30-37). -/
def phase_map : List (Nat × List Nat) :=
  [(45, [12, 13, 14, 15]), (46, [16, 17, 18, 19, 20]), (47, [21, 22, 23, 24, 25]),
   (48, [26, 27, 28, 29]), (49, [30, 31, 32, 33, 34]), (50, [35, 36, 37, 38])]

/-- The whole script (lines 39-45). -/
def script (w : World) (pm : List (Nat × List Nat)) : Py Unit := do
  phaseLoopL w pm
  output "\n✅ All child issues linked to parent epics!"

end lctp

/-!  ### src/scripts/link_issues_graphql.py  -/

namespace lig

/-- The `phase_map` literal (lines 11-18). -/
def phase_map : List (Nat × List Nat) :=
  [(45, [12, 13, 14, 15]), (46, [16, 17, 18, 19, 20]), (47, [21, 22, 23, 24, 25]),
   (48, [26, 27, 28, 29]), (49, [30, 31, 32, 33, 34]), (50, [35, 36, 37, 38])]

/-- The query f-string of `get_issue_id` (lines 22-30); the repository
coordinate `goblinsan`/`vizail` is embedded in the query text itself. -/
def queryText (n : Nat) : String :=
  "\n    query \x7b\n    repository(owner: \"goblinsan\", name: \"vizail\") \x7b\n        issue(number: " ++
  toString n ++ ") \x7b\n          id\n        \x7d\n      \x7d\n    \x7d\n    "

/-- `get_issue_id(issue_num)` (lines 20-39): on zero exit parse stdout —
`json.loads` and the four subscripts are not wrapped in `try`, so
malformed output or a missing field raises an uncaught exception — and
return the global id; on non-zero exit return `None`. -/
def get_issue_id (w : World) (n : Nat) : Py JVal := do
  let r ← call w ["gh", "api", "graphql", "-f", "query=" ++ queryText n] none
  if r.exitCode == 0 then
    let data ← liftE (jsonLoads r.stdout)
    let d1 ← liftE (data.index "data")
    let d2 ← liftE (d1.index "repository")
    let d3 ← liftE (d2.index "issue")
    let i ← liftE (d3.index "id")
    pure i
  else
    pure .null

/-- The mutation text of `link_sub_issue` (lines 43-53). -/
def mutationText : String :=
  "\n        mutation AddSubIssue($issueId: ID!, $subIssueId: ID!, $replaceParent: Boolean) \x7b\n" ++
  "            addSubIssue(input: \x7bissueId: $issueId, subIssueId: $subIssueId, replaceParent: $replaceParent\x7d) \x7b\n" ++
  "                subIssue \x7b\n                    id\n                    number: number\n" ++
  "                    parent \x7b number \x7d\n                \x7d\n            \x7d\n        \x7d\n        "

/-- `link_sub_issue(parent_id, sub_issue_id)` (lines 41-63): one GraphQL
mutation call with `replaceParent=true`; returns the success flag and
stderr. -/
def link_sub_issue (w : World) (parentId subId : JVal) : Py (Bool × String) := do
  let r ← call w
    ["gh", "api", "graphql", "-f", "query=" ++ mutationText,
     "-f", "issueId=" ++ pyStr parentId, "-f", "subIssueId=" ++ pyStr subId,
     "-F", "replaceParent=true"] none
  pure (r.exitCode == 0, r.stderr)

/-- `f"{v}"` display of a fetched id (line 71). -/
def idRepr : JVal → String := pyStr

/-- The epic-id fetch loop (lines 69-71): store each id and print it. -/
def fetchEpicIds (w : World) (ids : List (Nat × JVal)) : List (Nat × List Nat) → Py (List (Nat × JVal))
  | [] => pure ids
  | e :: es => do
    let v ← get_issue_id w e.1
    output ("  Epic #" ++ toString e.1 ++ ": " ++ idRepr v)
    fetchEpicIds w (ids ++ [(e.1, v)]) es

/-- The inner child-id fetch loop (lines 75-77): fetch only numbers not
already present in the id map. -/
def fetchKidsInner (w : World) (ids : List (Nat × JVal)) : List Nat → Py (List (Nat × JVal))
  | [] => pure ids
  | c :: cs =>
    if (ids.lookup c).isSome then
      fetchKidsInner w ids cs
    else do
      let v ← get_issue_id w c
      fetchKidsInner w (ids ++ [(c, v)]) cs

/-- The outer child-id fetch loop (lines 74-77). -/
def fetchKids (w : World) (ids : List (Nat × JVal)) : List (Nat × List Nat) → Py (List (Nat × JVal))
  | [] => pure ids
  | e :: es => do
    let ids2 ← fetchKidsInner w ids e.2
    fetchKids w ids2 es

/-- `issue_ids.get(n)` flattened to the stored value (`.null` when the key
is absent, matching the falsiness test that follows). -/
def idOf (ids : List (Nat × JVal)) (n : Nat) : JVal := ((ids.lookup n).getD .null)

/-- The inner link loop (lines 88-98). -/
def linkChildren (w : World) (ids : List (Nat × JVal)) (pid : JVal) (epic : Nat) : List Nat → Py Unit
  | [] => pure ()
  | c :: cs => do
    let cid := idOf ids c
    if !cid.truthy then
      output ("  ❌ Could not get ID for issue #" ++ toString c)
    else
      let pr ← link_sub_issue w pid cid
      if pr.1 then
        output ("  ✅ Linked #" ++ toString c ++ " → #" ++ toString epic)
      else
        output ("  ❌ ERROR linking #" ++ toString c ++ ": " ++ strTake pr.2 100)
    linkChildren w ids pid epic cs

/-- The outer link loop (lines 81-98). -/
def linkEpics (w : World) (ids : List (Nat × JVal)) : List (Nat × List Nat) → Py Unit
  | [] => pure ()
  | e :: es => do
    let pid := idOf ids e.1
    if !pid.truthy then
      output ("❌ Could not get ID for epic #" ++ toString e.1)
    else
      output ("Linking to epic #" ++ toString e.1 ++ "...")
      linkChildren w ids pid e.1 e.2
    linkEpics w ids es

/-- Total number of children in the map (line 79). -/
def countKids (pm : List (Nat × List Nat)) : Nat :=
  (pm.map (fun e => e.2.length)).foldl (· + ·) 0

/-- The whole script (lines 65-100). -/
def script (w : World) (pm : List (Nat × List Nat)) : Py Unit := do
  output "Fetching issue IDs...\n"
  let ids ← fetchEpicIds w [] pm
  let ids2 ← fetchKids w ids pm
  output ("\nLinking " ++ toString (countKids pm) ++ " child issues to parent epics...\n")
  linkEpics w ids2 pm
  output "\n✅ All child issues linked to parent epics!"

end lig

/-!  ### src/scripts/link_issues_hierarchy.py  -/

namespace lih

/-- The `phase_map` literal (lines 9-16). -/
def phase_map : List (Nat × List Nat) :=
  [(45, [12, 13, 14, 15]), (46, [16, 17, 18, 19, 20]), (47, [21, 22, 23, 24, 25]),
   (48, [26, 27, 28, 29]), (49, [30, 31, 32, 33, 34]), (50, [35, 36, 37, 38])]

/-- The PATCH command of lines 23-30, with the parent URL of line 21. -/
def patchCmd (child epic : Nat) : List String :=
  ["gh", "api", "/repos/goblinsan/visual-flow/issues/" ++ toString child,
   "--method", "PATCH",
   "-f", "parent_issue_url=https://api.github.com/repos/goblinsan/visual-flow/issues/" ++ toString epic]

/-- The inner loop (lines 22-35). -/
def childLoopH (w : World) (epic : Nat) : List Nat → Py Unit
  | [] => pure ()
  | c :: cs => do
    let r ← call w (patchCmd c epic) none
    if r.exitCode == 0 then
      output ("  ✅ Linked #" ++ toString c ++ " → #" ++ toString epic)
    else
      output ("  ❌ ERROR linking #" ++ toString c ++ ": " ++ strTake r.stderr 100)
    childLoopH w epic cs

/-- The outer loop (lines 19-35). -/
def phaseLoopH (w : World) : List (Nat × List Nat) → Py Unit
  | [] => pure ()
  | e :: es => do
    output ("Linking to epic #" ++ toString e.1 ++ "...")
    childLoopH w e.1 e.2
    phaseLoopH w es

/-- The whole script (lines 18-37). -/
def script (w : World) (pm : List (Nat × List Nat)) : Py Unit := do
  output "Linking child issues to parent epics via PATCH...\n"
  phaseLoopH w pm
  outputs ["\n✅ All child issues linked to parent epics!"]

end lih

/-!  ### src/scripts/populate_issue_descriptions.py  -/

namespace pidesc

/-- Line 8: `REPO = "goblinsan/vizail"`. -/
def REPO : String := "goblinsan/vizail"

/-- The PATCH command of `update_issue_body` (lines 466-473). -/
def updateCmd (n : Nat) (body : String) : List String :=
  ["gh", "api", "/repos/" ++ REPO ++ "/issues/" ++ toString n,
   "-X", "PATCH", "-f", "body=" ++ body]

/-- `update_issue_body(issue_num, body)` (lines 464-479). -/
def update_issue_body (w : World) (n : Nat) (body : String) : Py Bool := do
  let r ← call w (updateCmd n body) none
  if r.exitCode == 0 then
    output ("✅ Updated #" ++ toString n)
    pure true
  else
    output ("❌ Error updating #" ++ toString n ++ ": " ++ strTake r.stderr 100)
    pure false

/-- Insertion into a sorted list, for `sorted(...)`. -/
def insertSorted (n : Nat) : List Nat → List Nat
  | [] => [n]
  | m :: ms => if n ≤ m then n :: m :: ms else m :: insertSorted n ms

/-- `sorted(ISSUE_DETAILS.keys())` (line 482). -/
def sortKeys (d : List (Nat × String)) : List Nat :=
  d.foldr (fun p acc => insertSorted p.1 acc) []

/-- The loop of lines 482-483, over the sorted keys; `ISSUE_DETAILS[n]`
is the stored text (the keys iterated are the keys of the same dict, so
the lookup always succeeds). -/
def issuesLoopP (w : World) (details : List (Nat × String)) : List Nat → Py Unit
  | [] => pure ()
  | n :: ns => do
    let _ ← update_issue_body w n ((details.lookup n).getD "")
    issuesLoopP w details ns

/-- The whole script (lines 481-485), over the `ISSUE_DETAILS` catalog. -/
def script (w : World) (details : List (Nat × String)) : Py Unit := do
  output "Populating issues with detailed descriptions...\n"
  issuesLoopP w details (sortKeys details)
  outputs ["\n✅ All issues populated with descriptions!"]

end pidesc

/-!  ### Tracker-level model of the parent/child relation  -/

/-- The tracker parent relation: each child global id maps to its current
parent global id, if any. -/
def TrackerRel : Type := String → Option String

/-- Modelled from the spec: the `addSubIssue` mutation invoked with
`replaceParent=true` is "idempotent at the tracker level (repeated calls
with `replaceParent=true` overwrite rather than duplicate)"; the tracker
behaviour itself is not code of this repository.  One successful call
sets the parent pointer of `c` to `p`, overwriting any previous parent. -/
def applyLink (p c : String) (t : TrackerRel) : TrackerRel :=
  fun x => if x = c then some p else t x

/-- Apply a sequence of (parent, child) link mutations in order. -/
def applyAll (ws : List (String × String)) (t : TrackerRel) : TrackerRel :=
  ws.foldl (fun acc pc => applyLink pc.1 pc.2 acc) t

/-- The last write whose child is `x`, scanning the write list from the
end. -/
def lastWriteFor (x : String) (ws : List (String × String)) : Option String :=
  (ws.reverse.find? (fun pc => pc.2 == x)).map Prod.fst

/-- The inner loop of the linking pass at the tracker level (lines 88-98
of `link_issues_graphql.py`): a child is linked only when its resolved
id is truthy (non-`None`, non-empty). -/
def childLinkFold (p : String) (r : Nat → Option String) (t : TrackerRel) (cs : List Nat) : TrackerRel :=
  cs.foldl
    (fun acc c =>
      match r c with
      | some cid => if cid.isEmpty then acc else applyLink p cid acc
      | none => acc)
    t

/-- One epic entry of the linking pass (lines 81-98): skipped entirely
when the epic id does not resolve to a truthy value. -/
def epicLinkStep (r : Nat → Option String) (t : TrackerRel) (e : Nat × List Nat) : TrackerRel :=
  match r e.1 with
  | some p => if p.isEmpty then t else childLinkFold p r t e.2
  | none => t

/-- The linking pass over a static id map: the tracker-level effect of one
run of the link loop of `link_issues_graphql.py`, given the id
resolution `r` obtained from the fetch phase. -/
def linkingPass (pm : List (Nat × List Nat)) (r : Nat → Option String) (t : TrackerRel) : TrackerRel :=
  pm.foldl (epicLinkStep r) t

/-- The (parent, child) writes the inner loop performs for one epic. -/
def childWrites (p : String) (r : Nat → Option String) (cs : List Nat) : List (String × String) :=
  cs.filterMap
    (fun c =>
      match r c with
      | some cid => if cid.isEmpty then none else some (p, cid)
      | none => none)

/-- The writes one epic entry performs. -/
def epicWrites (r : Nat → Option String) (e : Nat × List Nat) : List (String × String) :=
  match r e.1 with
  | some p => if p.isEmpty then [] else childWrites p r e.2
  | none => []

/-- All writes of one linking pass, in order. -/
def passWrites (pm : List (Nat × List Nat)) (r : Nat → Option String) : List (String × String) :=
  (pm.map (epicWrites r)).flatten

/-- Id resolution for the spec example scenario: epic 11 and children 12
and 13 resolve to the global ids `E11`, `C12`, `C13`. -/
def scenarioIds : Nat → Option String :=
  fun n => if n = 11 then some "E11" else if n = 12 then some "C12" else
    if n = 13 then some "C13" else none

/-!  ### Concrete worlds and states used in closed statements  -/

/-- A world in which every external call exits 0 but writes output that is
not valid JSON (for example an empty response body). -/
def badW : World := fun _ => { exitCode := 0, stdoutEmpty := true, stdout := none, stderr := "" }

/-- A world in which every external call fails with exit code 1 and
stderr `"boom"`. -/
def wFail : World := fun _ => { exitCode := 1, stdoutEmpty := true, stdout := none, stderr := "boom" }

/-- A world whose first call succeeds with `{"number": 7}` and whose later
calls (the label additions) all fail with exit code 1. -/
def w7 : World := fun i =>
  if i = 0 then { exitCode := 0, stdoutEmpty := false, stdout := some (.obj [("number", .num 7)]), stderr := "" }
  else { exitCode := 1, stdoutEmpty := true, stdout := none, stderr := "label failed" }

/-- A world whose first call (the body fetch) succeeds with
`{"body": "Original body"}` and whose second call (the edit) succeeds. -/
def w8 : World := fun i =>
  if i = 0 then { exitCode := 0, stdoutEmpty := false, stdout := some (.obj [("body", .str "Original body")]), stderr := "" }
  else { exitCode := 0, stdoutEmpty := true, stdout := none, stderr := "" }

/-- A world whose first call (the body fetch) fails with exit code 1 and
whose second call (the edit) succeeds. -/
def w10 : World := fun i =>
  if i = 0 then { exitCode := 1, stdoutEmpty := true, stdout := none, stderr := "not found" }
  else { exitCode := 0, stdoutEmpty := true, stdout := none, stderr := "" }

/-- An initial state in which issue 12 already has a body. -/
def st10 : St :=
  { idx := 0, trace := [], log := [],
    bodies := fun n => if n = 12 then some "Precious content" else none }

/-- A run of a `Py` computation terminates normally from every state. -/
def Tot {α : Type} (x : Py α) : Prop := ∀ s, ∃ a s', x s = (.ok a, s')

/-!  ### Evaluation lemmas for the `Py` monad  -/

theorem bind_eval {α β : Type} (x : Py α) (f : α → Py β) (s : St) :
    (x >>= f) s =
      match x s with
      | (.ok a, s') => f a s'
      | (.error e, s') => (.error e, s') := rfl

theorem pure_eval {α : Type} (a : α) (s : St) : (pure a : Py α) s = (.ok a, s) := rfl

theorem output_eval (line : String) (s : St) :
    output line s = (.ok (), { s with log := s.log ++ [line] }) := rfl

theorem call_eval (w : World) (cmd : List String) (inp : Option String) (s : St) :
    call w cmd inp s = (.ok (w s.idx), { s with idx := s.idx + 1, trace := s.trace ++ [(cmd, inp)] }) := rfl

theorem liftE_eval {α : Type} (e : Except PyExc α) (s : St) : liftE e s = (e, s) := rfl

theorem pyTry_eval {α : Type} (x : Py α) (h : PyExc → Py α) (s : St) :
    pyTry x h s =
      match x s with
      | (.error e, s') => h e s'
      | ok => ok := rfl

/-!  ### Totality combinators  -/

theorem tot_pure {α : Type} (a : α) : Tot (pure a : Py α) := fun s => ⟨a, s, rfl⟩

theorem tot_bind {α β : Type} {x : Py α} {f : α → Py β}
    (hx : Tot x) (hf : ∀ a, Tot (f a)) : Tot (x >>= f) := by
  intro s
  obtain ⟨a, s', h⟩ := hx s
  obtain ⟨b, s'', h2⟩ := hf a s'
  exact ⟨b, s'', by rw [bind_eval, h]; exact h2⟩

theorem tot_output (line : String) : Tot (output line) := fun s => ⟨(), _, rfl⟩

theorem tot_call (w : World) (cmd : List String) (inp : Option String) : Tot (call w cmd inp) :=
  fun s => ⟨w s.idx, _, rfl⟩

theorem tot_callEdit (w : World) (cmd : List String) (inp : String) (n : Nat) :
    Tot (callEdit w cmd inp n) := fun s => ⟨w s.idx, _, rfl⟩

theorem tot_pyTry {α : Type} {x : Py α} {h : PyExc → Py α}
    (hh : ∀ e, Tot (h e)) : Tot (pyTry x h) := by
  intro s
  rcases hx : x s with ⟨r, s'⟩
  cases r with
  | ok a => exact ⟨a, s', by rw [pyTry_eval, hx]⟩
  | error e =>
    obtain ⟨b, s'', h2⟩ := hh e s'
    exact ⟨b, s'', by rw [pyTry_eval, hx]; exact h2⟩

theorem tot_ite {α : Type} {c : Prop} [Decidable c] {x y : Py α}
    (hx : Tot x) (hy : Tot y) : Tot (if c then x else y) := by
  by_cases h : c
  · simpa [h] using hx
  · simpa [h] using hy

/-!  ### Totality of the four scripts that trap every exception  -/

theorem tot_addLabelsLoop (w : World) (num : JVal) (ls : List String) :
    Tot (createEpics.addLabelsLoop w num ls) := by
  induction ls with
  | nil => exact tot_pure _
  | cons l ls ih =>
    exact tot_bind (tot_call w _ none) (fun _ => ih)

theorem tot_create_epic (w : World) (t b : String) (ls : List String) :
    Tot (createEpics.create_epic w t b ls) := by
  unfold createEpics.create_epic
  refine tot_bind (tot_call w _ none) (fun result => ?_)
  refine tot_ite (tot_bind (tot_output _) (fun _ => tot_pure _)) ?_
  refine tot_pyTry (fun e => ?_)
  exact tot_bind (tot_output _) (fun _ => tot_pure _)

theorem tot_epicLoop (w : World) (cat : List createEpics.EpicSpec) :
    Tot (createEpics.epicLoop w cat) := by
  induction cat with
  | nil => exact tot_pure _
  | cons e es ih =>
    exact tot_bind (tot_create_epic w e.title e.body e.labels) (fun _ => ih)

theorem tot_run_gh (w : World) (args : List String) :
    Tot (createGithubIssues.run_gh w args) := tot_call w _ none

theorem tot_create_milestone (w : World) (t d : String) :
    Tot (createGithubIssues.create_milestone w t d) := by
  unfold createGithubIssues.create_milestone
  refine tot_bind (tot_run_gh w _) (fun _ => ?_)
  refine tot_bind (tot_run_gh w _) (fun r2 => ?_)
  exact tot_pyTry (fun _ => tot_pure _)

theorem tot_cgiLabelLoop (w : World) (num : JVal) (ls : List String) :
    Tot (createGithubIssues.cgiLabelLoop w num ls) := by
  induction ls with
  | nil => exact tot_pure _
  | cons l ls ih =>
    exact tot_bind (tot_run_gh w _) (fun _ => ih)

theorem tot_cgi_create_issue (w : World) (t b : String) (m : JVal) (ls : List String) :
    Tot (createGithubIssues.create_issue w t b m ls) := by
  unfold createGithubIssues.create_issue
  refine tot_bind (tot_output _) (fun _ => ?_)
  refine tot_bind (tot_run_gh w _) (fun r => ?_)
  refine tot_ite (tot_bind (tot_output _) (fun _ => tot_pure _)) ?_
  refine tot_pyTry (fun _ => tot_pure _)

theorem tot_cgi_issuesLoop (w : World) (m : JVal) (l : List createGithubIssues.IssueSpec) :
    Tot (createGithubIssues.issuesLoop w m l) := by
  induction l with
  | nil => exact tot_pure _
  | cons i rest ih =>
    exact tot_bind (tot_cgi_create_issue w i.title i.body m i.labels) (fun _ => ih)

theorem tot_cgi_phaseLoop (w : World) (cat : List createGithubIssues.PhaseSpec) :
    Tot (createGithubIssues.phaseLoop w cat) := by
  induction cat with
  | nil => exact tot_pure _
  | cons ph rest ih =>
    refine tot_bind (tot_output _) (fun _ => ?_)
    refine tot_bind (tot_create_milestone w ph.title ph.desc) (fun m => ?_)
    exact tot_ite (tot_bind (tot_cgi_issuesLoop w m ph.issues) (fun _ => ih)) ih

theorem tot_lih_childLoop (w : World) (epic : Nat) (cs : List Nat) :
    Tot (lih.childLoopH w epic cs) := by
  induction cs with
  | nil => exact tot_pure _
  | cons c cs ih =>
    refine tot_bind (tot_call w _ none) (fun r => ?_)
    exact tot_ite (tot_bind (tot_output _) (fun _ => ih))
      (tot_bind (tot_output _) (fun _ => ih))

theorem tot_lih_phaseLoop (w : World) (pm : List (Nat × List Nat)) :
    Tot (lih.phaseLoopH w pm) := by
  induction pm with
  | nil => exact tot_pure _
  | cons e es ih =>
    refine tot_bind (tot_output _) (fun _ => ?_)
    exact tot_bind (tot_lih_childLoop w e.1 e.2) (fun _ => ih)

theorem tot_pid_update (w : World) (n : Nat) (b : String) :
    Tot (pidesc.update_issue_body w n b) := by
  unfold pidesc.update_issue_body
  refine tot_bind (tot_call w _ none) (fun r => ?_)
  exact tot_ite (tot_bind (tot_output _) (fun _ => tot_pure _))
    (tot_bind (tot_output _) (fun _ => tot_pure _))

theorem tot_pid_issuesLoop (w : World) (d : List (Nat × String)) (ks : List Nat) :
    Tot (pidesc.issuesLoopP w d ks) := by
  induction ks with
  | nil => exact tot_pure _
  | cons n ns ih =>
    exact tot_bind (tot_pid_update w n _) (fun _ => ih)

/-!  ### Whole-script runs of the four scripts that trap every exception  -/

theorem outputs_eval (ls : List String) (s : St) :
    outputs ls s = (.ok (), { s with log := s.log ++ ls }) := by
  induction ls generalizing s with
  | nil => simp [outputs, pure_eval]
  | cons l ls ih =>
    show (output l >>= fun _ => outputs ls) s = _
    simp only [bind_eval, output_eval, ih]
    simp

theorem ceRun (w : World) (cat : List createEpics.EpicSpec) (s : St) :
    ∃ s', createEpics.script w cat s = (.ok (), s') ∧
      ("\nVisit: https://github.com/" ++ createEpics.REPO ++ "/issues") ∈ s'.log := by
  obtain ⟨a, s2, h2⟩ := tot_epicLoop w cat { s with log := s.log ++ ["Creating Epic Issues...\n"] }
  cases a
  refine ⟨{ s2 with log := s2.log ++
      ["\n" ++ String.mk (List.replicate 60 '='),
       "✅ Epic issues created!",
       String.mk (List.replicate 60 '='),
       "\nDependency chain:",
       "  Phase 0 (epic) → Phase 1 (epic) → Phase 2 (epic) → Phase 3 (epic) → Phase 4 (epic)",
       "                                      ↓",
       "                              Phase 5 (epic) [parallel]",
       "\nVisit: https://github.com/" ++ createEpics.REPO ++ "/issues"] }, ?_, by simp⟩
  show createEpics.script w cat s = _
  simp only [createEpics.script, bind_eval, output_eval, h2, outputs_eval]

theorem cgiRun (w : World) (cat : List createGithubIssues.PhaseSpec) (s : St) :
    ∃ s', createGithubIssues.script w cat s = (.ok (), s') ∧
      "📊 Visit: https://github.com/goblinsan/visual-flow/issues" ∈ s'.log := by
  obtain ⟨a, s2, h2⟩ := tot_cgi_phaseLoop w cat s
  cases a
  refine ⟨{ s2 with log := s2.log ++
      ["\n" ++ String.mk (List.replicate 60 '='),
       "✨ Done! All milestones and issues created.",
       "📊 Visit: https://github.com/goblinsan/visual-flow/issues"] }, ?_, by simp⟩
  show createGithubIssues.script w cat s = _
  simp only [createGithubIssues.script, bind_eval, h2, outputs_eval]

theorem lihRun (w : World) (pm : List (Nat × List Nat)) (s : St) :
    ∃ s', lih.script w pm s = (.ok (), s') ∧
      "\n✅ All child issues linked to parent epics!" ∈ s'.log := by
  obtain ⟨a, s2, h2⟩ := tot_lih_phaseLoop w pm
    { s with log := s.log ++ ["Linking child issues to parent epics via PATCH...\n"] }
  cases a
  refine ⟨{ s2 with log := s2.log ++ ["\n✅ All child issues linked to parent epics!"] }, ?_, by simp⟩
  show lih.script w pm s = _
  simp only [lih.script, bind_eval, output_eval, h2, outputs_eval]

theorem pidRun (w : World) (details : List (Nat × String)) (s : St) :
    ∃ s', pidesc.script w details s = (.ok (), s') ∧
      "\n✅ All issues populated with descriptions!" ∈ s'.log := by
  obtain ⟨a, s2, h2⟩ := tot_pid_issuesLoop w details (pidesc.sortKeys details)
    { s with log := s.log ++ ["Populating issues with detailed descriptions...\n"] }
  cases a
  refine ⟨{ s2 with log := s2.log ++ ["\n✅ All issues populated with descriptions!"] }, ?_, by simp⟩
  show pidesc.script w details s = _
  simp only [pidesc.script, bind_eval, output_eval, h2, outputs_eval]


/-!  ### Failure-to-sentinel conversions of the individual operations  -/

theorem strMergeParseLine :
    ("  ❌ Parse error: " ++ excText PyExc.jsonDecodeError) = "  ❌ Parse error: JSONDecodeError" := rfl

theorem ceEpicFailExit (w : World) (s : St) (t b : String) (ls : List String)
    (ec : Int) (em : Bool) (o : Option JVal) (err : String)
    (h : w s.idx = { exitCode := ec, stdoutEmpty := em, stdout := o, stderr := err })
    (hec : ec ≠ 0) :
    (createEpics.create_epic w t b ls s).1 = .ok .null ∧
      (createEpics.create_epic w t b ls s).2.log = s.log ++ ["  ❌ " ++ t ++ ": " ++ strTake err 80] ∧
      (createEpics.create_epic w t b ls s).2.trace.length = s.trace.length + 1 := by
  refine ⟨?_, ?_, ?_⟩ <;>
    simp [createEpics.create_epic, bind_eval, call_eval, h, hec, output_eval, pure_eval]

theorem ceEpicFailParse (w : World) (s : St) (t b : String) (ls : List String)
    (em : Bool) (err : String)
    (h : w s.idx = { exitCode := 0, stdoutEmpty := em, stdout := none, stderr := err }) :
    (createEpics.create_epic w t b ls s).1 = .ok .null ∧
      (createEpics.create_epic w t b ls s).2.log = s.log ++ ["  ❌ Parse error: JSONDecodeError"] ∧
      (createEpics.create_epic w t b ls s).2.trace.length = s.trace.length + 1 := by
  refine ⟨?_, ?_, ?_⟩ <;>
    simp [createEpics.create_epic, bind_eval, call_eval, h, pyTry_eval, liftE_eval, jsonLoads,
      output_eval, pure_eval, excText, strMergeParseLine]

theorem cgiMilestoneParseSilent (w : World) (s : St) (t d : String)
    (ec2 : Int) (em2 : Bool) (err2 : String)
    (h2 : w (s.idx + 1) = { exitCode := ec2, stdoutEmpty := em2, stdout := none, stderr := err2 }) :
    (createGithubIssues.create_milestone w t d s).1 = .ok .null ∧
      (createGithubIssues.create_milestone w t d s).2.log = s.log ∧
      (createGithubIssues.create_milestone w t d s).2.trace.length = s.trace.length + 2 := by
  refine ⟨?_, ?_, ?_⟩ <;>
    simp [createGithubIssues.create_milestone, createGithubIssues.run_gh, bind_eval, call_eval,
      h2, pyTry_eval, liftE_eval, jsonLoads, pure_eval]

theorem cgiIssueFailExit (w : World) (s : St) (t b : String) (m : JVal) (ls : List String)
    (ec : Int) (em : Bool) (o : Option JVal) (err : String)
    (h : w s.idx = { exitCode := ec, stdoutEmpty := em, stdout := o, stderr := err })
    (hec : ec ≠ 0) :
    (createGithubIssues.create_issue w t b m ls s).1 = .ok .null ∧
      (createGithubIssues.create_issue w t b m ls s).2.log =
        (s.log ++ ["    📋 Creating issue: " ++ strTake t 50 ++ "..."]) ++
          ["    Error: " ++ strTake err 80] ∧
      (createGithubIssues.create_issue w t b m ls s).2.trace.length = s.trace.length + 1 := by
  refine ⟨?_, ?_, ?_⟩ <;>
    simp [createGithubIssues.create_issue, createGithubIssues.run_gh, bind_eval, call_eval,
      h, hec, output_eval, pure_eval]

theorem cgiIssueParseSilent (w : World) (s : St) (t b : String) (m : JVal) (ls : List String)
    (em : Bool) (err : String)
    (h : w s.idx = { exitCode := 0, stdoutEmpty := em, stdout := none, stderr := err }) :
    (createGithubIssues.create_issue w t b m ls s).1 = .ok .null ∧
      (createGithubIssues.create_issue w t b m ls s).2.log =
        s.log ++ ["    📋 Creating issue: " ++ strTake t 50 ++ "..."] ∧
      (createGithubIssues.create_issue w t b m ls s).2.trace.length = s.trace.length + 1 := by
  refine ⟨?_, ?_, ?_⟩ <;>
    simp [createGithubIssues.create_issue, createGithubIssues.run_gh, bind_eval, call_eval,
      h, pyTry_eval, liftE_eval, jsonLoads, output_eval, pure_eval]

theorem lihStepFail (w : World) (s : St) (epic c : Nat) (cs : List Nat)
    (ec : Int) (em : Bool) (o : Option JVal) (err : String)
    (h : w s.idx = { exitCode := ec, stdoutEmpty := em, stdout := o, stderr := err })
    (hec : ec ≠ 0) :
    lih.childLoopH w epic (c :: cs) s =
      lih.childLoopH w epic cs { s with idx := s.idx + 1, trace := s.trace ++ [(lih.patchCmd c epic, none)], log := s.log ++ ["  ❌ ERROR linking #" ++ toString c ++ ": " ++ strTake err 100] } := by
  simp [lih.childLoopH, bind_eval, call_eval, h, hec, output_eval]

theorem pidUpdateFail (w : World) (s : St) (n : Nat) (b : String)
    (ec : Int) (em : Bool) (o : Option JVal) (err : String)
    (h : w s.idx = { exitCode := ec, stdoutEmpty := em, stdout := o, stderr := err })
    (hec : ec ≠ 0) :
    (pidesc.update_issue_body w n b s).1 = .ok false ∧
      (pidesc.update_issue_body w n b s).2.log =
        s.log ++ ["❌ Error updating #" ++ toString n ++ ": " ++ strTake err 100] ∧
      (pidesc.update_issue_body w n b s).2.trace.length = s.trace.length + 1 := by
  refine ⟨?_, ?_, ?_⟩ <;>
    simp [pidesc.update_issue_body, bind_eval, call_eval, h, hec, output_eval, pure_eval]


/-!  ### Claim C1  -/

/-- Claim C1, counterexample.  The claim states that for every script and
every sequence of external-call outcomes no exception propagates and the
final summary line is printed.  In `link_issues_graphql.py`, when the
very first `gh api graphql` call exits 0 but prints output that is not
valid JSON (here: empty output, the world `badW`), `get_issue_id` calls
`json.loads` outside any `try` block (line 37), the resulting
`json.JSONDecodeError` propagates out of the whole script, and the final
summary line is never printed. -/
theorem claim1_counterexample :
    (lig.script badW lig.phase_map st0).1 = .error .jsonDecodeError ∧
      "\n✅ All child issues linked to parent epics!" ∉ (lig.script badW lig.phase_map st0).2.log := by
  constructor
  · rfl
  · decide

/-- Claim C1, amended: in `create_epics.py`, `create_github_issues.py`,
`link_issues_hierarchy.py` and `populate_issue_descriptions.py`, for
every catalog and every sequence of external-call outcomes no exception
propagates: the run terminates normally and the final summary line is
printed.  Every individual failure is converted into a sentinel
no-result value: `create_epic` returns `None` and logs a message both on
a non-zero exit and on a parse failure; `create_github_issues.py`
returns `None` from `create_milestone` and `create_issue`, logging
non-zero exits of `create_issue` but swallowing parse failures silently
(bare `except`, no logged message, log unchanged);
`link_issues_hierarchy.py` logs each failed PATCH call and continues
with the remaining children; `populate_issue_descriptions.py` logs each
failed update and returns `False`.  (The original claim fails for
`link_issues_graphql.py` and `link_child_to_parent.py`, whose
`json.loads` calls are not wrapped in `try`, and for
`create_milestones_and_issues.py`, which raises `NameError` on every
run — see the counterexample and claims C2, C9.) -/
theorem claim1_thm :
    (∀ (w : World) (cat : List createEpics.EpicSpec) (s : St),
        ∃ s', createEpics.script w cat s = (.ok (), s') ∧
          ("\nVisit: https://github.com/" ++ createEpics.REPO ++ "/issues") ∈ s'.log) ∧
    (∀ (w : World) (cat : List createGithubIssues.PhaseSpec) (s : St),
        ∃ s', createGithubIssues.script w cat s = (.ok (), s') ∧
          "📊 Visit: https://github.com/goblinsan/visual-flow/issues" ∈ s'.log) ∧
    (∀ (w : World) (pm : List (Nat × List Nat)) (s : St),
        ∃ s', lih.script w pm s = (.ok (), s') ∧
          "\n✅ All child issues linked to parent epics!" ∈ s'.log) ∧
    (∀ (w : World) (details : List (Nat × String)) (s : St),
        ∃ s', pidesc.script w details s = (.ok (), s') ∧
          "\n✅ All issues populated with descriptions!" ∈ s'.log) ∧
    (∀ (w : World) (s : St) (t b : String) (ls : List String)
        (ec : Int) (em : Bool) (o : Option JVal) (err : String),
        w s.idx = { exitCode := ec, stdoutEmpty := em, stdout := o, stderr := err } → ec ≠ 0 →
        (createEpics.create_epic w t b ls s).1 = .ok .null ∧
          (createEpics.create_epic w t b ls s).2.log =
            s.log ++ ["  ❌ " ++ t ++ ": " ++ strTake err 80] ∧
          (createEpics.create_epic w t b ls s).2.trace.length = s.trace.length + 1) ∧
    (∀ (w : World) (s : St) (t b : String) (ls : List String) (em : Bool) (err : String),
        w s.idx = { exitCode := 0, stdoutEmpty := em, stdout := none, stderr := err } →
        (createEpics.create_epic w t b ls s).1 = .ok .null ∧
          (createEpics.create_epic w t b ls s).2.log =
            s.log ++ ["  ❌ Parse error: JSONDecodeError"] ∧
          (createEpics.create_epic w t b ls s).2.trace.length = s.trace.length + 1) ∧
    (∀ (w : World) (s : St) (t d : String) (ec2 : Int) (em2 : Bool) (err2 : String),
        w (s.idx + 1) = { exitCode := ec2, stdoutEmpty := em2, stdout := none, stderr := err2 } →
        (createGithubIssues.create_milestone w t d s).1 = .ok .null ∧
          (createGithubIssues.create_milestone w t d s).2.log = s.log ∧
          (createGithubIssues.create_milestone w t d s).2.trace.length = s.trace.length + 2) ∧
    (∀ (w : World) (s : St) (t b : String) (m : JVal) (ls : List String)
        (ec : Int) (em : Bool) (o : Option JVal) (err : String),
        w s.idx = { exitCode := ec, stdoutEmpty := em, stdout := o, stderr := err } → ec ≠ 0 →
        (createGithubIssues.create_issue w t b m ls s).1 = .ok .null ∧
          (createGithubIssues.create_issue w t b m ls s).2.log =
            (s.log ++ ["    📋 Creating issue: " ++ strTake t 50 ++ "..."]) ++
              ["    Error: " ++ strTake err 80] ∧
          (createGithubIssues.create_issue w t b m ls s).2.trace.length = s.trace.length + 1) ∧
    (∀ (w : World) (s : St) (t b : String) (m : JVal) (ls : List String) (em : Bool) (err : String),
        w s.idx = { exitCode := 0, stdoutEmpty := em, stdout := none, stderr := err } →
        (createGithubIssues.create_issue w t b m ls s).1 = .ok .null ∧
          (createGithubIssues.create_issue w t b m ls s).2.log =
            s.log ++ ["    📋 Creating issue: " ++ strTake t 50 ++ "..."] ∧
          (createGithubIssues.create_issue w t b m ls s).2.trace.length = s.trace.length + 1) ∧
    (∀ (w : World) (s : St) (epic c : Nat) (cs : List Nat)
        (ec : Int) (em : Bool) (o : Option JVal) (err : String),
        w s.idx = { exitCode := ec, stdoutEmpty := em, stdout := o, stderr := err } → ec ≠ 0 →
        lih.childLoopH w epic (c :: cs) s =
          lih.childLoopH w epic cs { s with idx := s.idx + 1, trace := s.trace ++ [(lih.patchCmd c epic, none)], log := s.log ++ ["  ❌ ERROR linking #" ++ toString c ++ ": " ++ strTake err 100] }) ∧
    (∀ (w : World) (s : St) (n : Nat) (b : String)
        (ec : Int) (em : Bool) (o : Option JVal) (err : String),
        w s.idx = { exitCode := ec, stdoutEmpty := em, stdout := o, stderr := err } → ec ≠ 0 →
        (pidesc.update_issue_body w n b s).1 = .ok false ∧
          (pidesc.update_issue_body w n b s).2.log =
            s.log ++ ["❌ Error updating #" ++ toString n ++ ": " ++ strTake err 100] ∧
          (pidesc.update_issue_body w n b s).2.trace.length = s.trace.length + 1) :=
  ⟨ceRun, cgiRun, lihRun, pidRun,
   fun w s t b ls ec em o err h hec => ceEpicFailExit w s t b ls ec em o err h hec,
   fun w s t b ls em err h => ceEpicFailParse w s t b ls em err h,
   fun w s t d ec2 em2 err2 h2 => cgiMilestoneParseSilent w s t d ec2 em2 err2 h2,
   fun w s t b m ls ec em o err h hec => cgiIssueFailExit w s t b m ls ec em o err h hec,
   fun w s t b m ls em err h => cgiIssueParseSilent w s t b m ls em err h,
   fun w s epic c cs ec em o err h hec => lihStepFail w s epic c cs ec em o err h hec,
   fun w s n b ec em o err h hec => pidUpdateFail w s n b ec em o err h hec⟩

/-- Claim C1, witness: the failure-conversion clauses of the amended
claim exercised at concrete inputs.  Under `wFail` (every call exits 1
with stderr `"boom"`) and `badW` (every call exits 0 with non-JSON
output): `create_epic` returns `None` logging the error, respectively
the parse error; `create_milestone` returns `None` with the log
unchanged (silent swallow); `create_issue` returns `None` in both
worlds; the PATCH loop logs the failed link and continues with the
remaining children; and a failed description update returns `False`. -/
theorem claim1_witness :
    (wFail 0).exitCode = 1 ∧
      (createEpics.create_epic wFail "T" "B" ["l"] st0).1 = .ok .null ∧
      (createEpics.create_epic wFail "T" "B" ["l"] st0).2.log = ["  ❌ T: boom"] ∧
      (createEpics.create_epic badW "T" "B" ["l"] st0).2.log = ["  ❌ Parse error: JSONDecodeError"] ∧
      (createGithubIssues.create_milestone badW "T" "D" st0).1 = .ok .null ∧
      (createGithubIssues.create_milestone badW "T" "D" st0).2.log = [] ∧
      (createGithubIssues.create_issue wFail "T" "B" (.num 1) [] st0).1 = .ok .null ∧
      (createGithubIssues.create_issue badW "T" "B" (.num 1) [] st0).1 = .ok .null ∧
      (pidesc.update_issue_body wFail 12 "B" st0).1 = .ok false ∧
      lih.childLoopH wFail 45 [12, 13] st0 =
        lih.childLoopH wFail 45 [13] { st0 with idx := st0.idx + 1, trace := st0.trace ++ [(lih.patchCmd 12 45, none)], log := st0.log ++ ["  ❌ ERROR linking #12: " ++ strTake "boom" 100] } := by
  have hE := claim1_thm.2.2.2.2.1 wFail st0 "T" "B" ["l"] 1 true none "boom" rfl (by decide)
  have hF := claim1_thm.2.2.2.2.2.1 badW st0 "T" "B" ["l"] true "" rfl
  have hG := claim1_thm.2.2.2.2.2.2.1 badW st0 "T" "D" 0 true "" rfl
  have hH := claim1_thm.2.2.2.2.2.2.2.1 wFail st0 "T" "B" (.num 1) [] 1 true none "boom" rfl (by decide)
  have hI := claim1_thm.2.2.2.2.2.2.2.2.1 badW st0 "T" "B" (.num 1) [] true "" rfl
  have hJ := claim1_thm.2.2.2.2.2.2.2.2.2.1 wFail st0 45 12 [13] 1 true none "boom" rfl (by decide)
  have hK := claim1_thm.2.2.2.2.2.2.2.2.2.2 wFail st0 12 "B" 1 true none "boom" rfl (by decide)
  refine ⟨rfl, hE.1, ?_, ?_, hG.1, ?_, hH.1, hI.1, hK.1, hJ⟩
  · rw [hE.2.1]
    rfl
  · rw [hF.2.1]
    rfl
  · rw [hG.2.1]
    rfl

/-!  ### Claims C2, C6, C9: the creation driver raises NameError  -/

/-- Claim C2.  The code contradicts the claim: `create_milestone` never
"returns no id" — building its command list evaluates the unbound name
`REPO` and raises `NameError`, so on every run (any world, any non-empty
phase catalog) `main` terminates with an uncaught `NameError` during the
first phase, before any external invocation, instead of logging the
failure and continuing with the next phase. -/
theorem claim2_thm (w : World) (ph : cmai.CmaiPhase) (rest : List cmai.CmaiPhase) (s : St) :
    (cmai.main w (ph :: rest) s).1 = .error .nameError ∧
      (cmai.main w (ph :: rest) s).2.trace = s.trace ∧
      (cmai.main w (ph :: rest) s).2.idx = s.idx :=
  ⟨rfl, rfl, rfl⟩

/-- Claim C6.  The code contradicts the claim: `create_epic` never runs to
the point of returning no id — building its body f-string evaluates the
unbound name `issue_number` and raises `NameError` (and `main` has
already raised inside `create_milestone` before reaching it), so no
phase ever reaches epic or issue creation. -/
theorem claim6_thm (w : World) (mnum : JVal) (title : String) (s : St) :
    (cmai.create_epic w mnum title s).1 = .error .nameError ∧
      (cmai.create_epic w mnum title s).2.trace = s.trace ∧
      (cmai.create_epic w mnum title s).2.idx = s.idx :=
  ⟨rfl, rfl, rfl⟩

/-- Claim C9: in `create_milestones_and_issues.py` the name `REPO` is
never bound (only `REPO_OWNER` and `REPO_NAME`), so every call of
`create_milestone` raises `NameError` before any external invocation;
likewise `create_epic` raises `NameError` evaluating the unbound
`issue_number` in its body f-string; consequently `main` makes no
external invocation at all and terminates with an uncaught exception on
the first phase, for every world and every non-empty catalog. -/
theorem claim9_thm :
    (∀ (w : World) (t d u : String) (s : St),
        (cmai.create_milestone w t d u s).1 = .error .nameError ∧
          (cmai.create_milestone w t d u s).2.trace = s.trace) ∧
    (∀ (w : World) (m : JVal) (t : String) (s : St),
        (cmai.create_epic w m t s).1 = .error .nameError ∧
          (cmai.create_epic w m t s).2.trace = s.trace) ∧
    (∀ (w : World) (ph : cmai.CmaiPhase) (rest : List cmai.CmaiPhase) (s : St),
        (cmai.main w (ph :: rest) s).1 = .error .nameError ∧
          (cmai.main w (ph :: rest) s).2.trace = s.trace) :=
  ⟨fun w t d u s => ⟨rfl, rfl⟩, fun w m t s => ⟨rfl, rfl⟩, fun w ph rest s => ⟨rfl, rfl⟩⟩

/-!  ### Claim C3: idempotence of the replace-parent linking pass  -/

theorem applyAll_cons (pc : String × String) (ws : List (String × String)) (t : TrackerRel) :
    applyAll (pc :: ws) t = applyAll ws (applyLink pc.1 pc.2 t) := rfl

theorem lastWriteFor_cons (x : String) (pc : String × String) (ws : List (String × String)) :
    lastWriteFor x (pc :: ws) =
      match lastWriteFor x ws with
      | some p => some p
      | none => if pc.2 == x then some pc.1 else none := by
  unfold lastWriteFor
  rw [List.reverse_cons, List.find?_append]
  rcases h : (ws.reverse.find? fun q => q.2 == x) with _ | p
  · rcases hb : pc.2 == x with _ | _
    · simp [List.find?_cons, hb, h]
    · simp [List.find?_cons, hb, h]
  · simp [h, Option.or]

theorem applyAll_eval (ws : List (String × String)) (t : TrackerRel) (x : String) :
    applyAll ws t x =
      match lastWriteFor x ws with
      | some p => some p
      | none => t x := by
  induction ws generalizing t with
  | nil => simp [applyAll, lastWriteFor, List.find?]
  | cons pc ws ih =>
    rw [applyAll_cons, ih (applyLink pc.1 pc.2 t), lastWriteFor_cons]
    rcases h : lastWriteFor x ws with _ | p
    · simp only [h]
      rcases hb : pc.2 == x with _ | _
      · have hne : x ≠ pc.2 := fun hx => by simp [hx] at hb
        simp [applyLink, hne]
      · have heq : x = pc.2 := (beq_iff_eq.mp hb).symm
        simp [applyLink, heq]
    · simp [h]

theorem childLinkFold_cons (p : String) (r : Nat → Option String) (t : TrackerRel)
    (c : Nat) (cs : List Nat) :
    childLinkFold p r t (c :: cs) =
      childLinkFold p r
        (match r c with
         | some cid => if cid.isEmpty then t else applyLink p cid t
         | none => t) cs := rfl

theorem childWrites_cons (p : String) (r : Nat → Option String) (c : Nat) (cs : List Nat) :
    childWrites p r (c :: cs) =
      match r c with
      | some cid => if cid.isEmpty then childWrites p r cs else (p, cid) :: childWrites p r cs
      | none => childWrites p r cs := by
  unfold childWrites
  rw [List.filterMap_cons]
  rcases h : r c with _ | cid
  · simp
  · rcases he : cid.isEmpty with _ | _ <;> simp [he]

theorem childLinkFold_eq (p : String) (r : Nat → Option String) (t : TrackerRel) (cs : List Nat) :
    childLinkFold p r t cs = applyAll (childWrites p r cs) t := by
  induction cs generalizing t with
  | nil => rfl
  | cons c cs ih =>
    rw [childLinkFold_cons, childWrites_cons]
    rcases h : r c with _ | cid
    · simp only [h]
      exact ih t
    · rcases he : cid.isEmpty with _ | _
      · simp only [h, he, Bool.false_eq_true, if_false]
        rw [applyAll_cons]
        exact ih (applyLink p cid t)
      · simp only [h, he, if_true]
        exact ih t

theorem epicLinkStep_eq (r : Nat → Option String) (t : TrackerRel) (e : Nat × List Nat) :
    epicLinkStep r t e = applyAll (epicWrites r e) t := by
  unfold epicLinkStep epicWrites
  rcases h : r e.1 with _ | p
  · rfl
  · rcases he : p.isEmpty with _ | _
    · simp only [he, Bool.false_eq_true, if_false]
      exact childLinkFold_eq p r t e.2
    · simp only [he, if_true]
      rfl

theorem applyAll_append (a b : List (String × String)) (t : TrackerRel) :
    applyAll (a ++ b) t = applyAll b (applyAll a t) := by
  unfold applyAll
  rw [List.foldl_append]

theorem linkingPass_eq (pm : List (Nat × List Nat)) (r : Nat → Option String) (t : TrackerRel) :
    linkingPass pm r t = applyAll (passWrites pm r) t := by
  induction pm generalizing t with
  | nil => rfl
  | cons e pm ih =>
    show linkingPass pm r (epicLinkStep r t e) = _
    rw [ih, epicLinkStep_eq]
    unfold passWrites
    rw [List.map_cons, List.flatten_cons, applyAll_append]

/-- Claim C3: running the linking pass twice with the same static id map
(and the same id resolution) leaves the final parent/child relation
identical to running it once, for the GraphQL variant that passes
`replaceParent=true` — each successful mutation overwrites the child
parent pointer, so the second pass repeats exactly the same absolute
writes. -/
theorem claim3_thm (pm : List (Nat × List Nat)) (r : Nat → Option String) (t : TrackerRel) :
    linkingPass pm r (linkingPass pm r t) = linkingPass pm r t := by
  funext x
  rw [linkingPass_eq pm r (linkingPass pm r t), linkingPass_eq pm r t]
  rw [applyAll_eval, applyAll_eval]
  rcases h : lastWriteFor x (passWrites pm r) with _ | p
  · simp [h]
  · simp [h]

/-!  ### Claim C4: the example scenario and the parent-reference text  -/

theorem strAppendAssoc (a b c : String) : a ++ b ++ c = a ++ (b ++ c) := by
  cases a with
  | mk la =>
    cases b with
    | mk lb =>
      cases c with
      | mk lc =>
        show String.mk (la ++ lb ++ lc) = String.mk (la ++ (lb ++ lc))
        rw [List.append_assoc]

/-- Claim C4, counterexample.  In the example scenario (Epic id 11), the
body a child issue gets at creation time is
`body + "\n\n---\n\nPart of Epic #11"` (line 767 of
`create_milestones_and_issues.py`), and the body-rewrite pass would
prepend `"**Parent Epic:** #11\n\n"` (line 17 of
`link_child_to_parent.py`); neither at creation time nor after the
rewrite does the body contain the exact text `"Parent Epic: #11"`
asserted by the claim (shown here for a child whose catalog body is
empty). -/
theorem claim4_counterexample :
    containsStr (cmai.issueFullBody "" (.num 11)) "Parent Epic: #11" = false ∧
      containsStr (lctp.newBodyStr 11 (.str (cmai.issueFullBody "" (.num 11)))) "Parent Epic: #11" = false := by
  constructor
  · decide
  · decide

/-- Claim C4, amended: in the example scenario (one phase, milestone 10,
Epic 11, issues 12 and 13, all calls succeeding), each child issue body
carries the Epic id as the trailing creation-time reference
`"Part of Epic #11"` (not `"Parent Epic: #11"`; the body-rewrite script
would prepend `"**Parent Epic:** #11"`), and after the replace-parent
linking pass over the map `{11: [12, 13]}` Epic 11 has exactly the two
children 12 and 13 linked to it. -/
theorem claim4_thm :
    (∀ body : String, cmai.issueFullBody body (.num 11) = body ++ "\n\n---\n\nPart of Epic #11") ∧
    containsStr (cmai.issueFullBody "A body" (.num 11)) "Part of Epic #11" = true ∧
    (∀ body : JVal, lctp.newBodyStr 11 body = "**Parent Epic:** #11\n\n" ++ pyStr body) ∧
    (∀ t : TrackerRel,
        linkingPass [(11, [12, 13])] scenarioIds t "C12" = some "E11" ∧
        linkingPass [(11, [12, 13])] scenarioIds t "C13" = some "E11") := by
  refine ⟨?_, by decide, ?_, ?_⟩
  · intro body
    unfold cmai.issueFullBody
    rw [strAppendAssoc]
    rfl
  · intro body
    unfold lctp.newBodyStr
    rw [strAppendAssoc, strAppendAssoc]
    rfl
  · intro t
    exact ⟨rfl, rfl⟩

/-!  ### Claim C5: repository coordinates across the scripts  -/

/-- Claim C5, counterexample.  The claim states every external invocation
of every script addresses one and the same repository coordinate; but the
epic-creation command of `create_epics.py` addresses
`goblinsan/vizail` while the PATCH link command of
`link_issues_hierarchy.py` addresses `goblinsan/visual-flow`. -/
theorem claim5_counterexample :
    addressedCoord (createEpics.createEpicCmd "t" "b") = some "goblinsan/vizail" ∧
      addressedCoord (lih.patchCmd 12 45) = some "goblinsan/visual-flow" ∧
      ("goblinsan/vizail" : String) ≠ "goblinsan/visual-flow" := by
  refine ⟨rfl, rfl, by decide⟩

/-- Claim C5, amended: each script uses a single fixed repository
coordinate in every invocation that explicitly names one, but two
distinct coordinates occur across the repository: `goblinsan/vizail`
(`create_epics.py`, `populate_issue_descriptions.py`, and, embedded in
the GraphQL query text, `link_issues_graphql.py`) and
`goblinsan/visual-flow` (`create_github_issues.py`,
`link_issues_hierarchy.py`); moreover several invocations (label edits,
`gh issue view`/`edit`, the GraphQL calls) pass no explicit repository
coordinate at all. -/
theorem claim5_thm :
    (∀ t b : String, addressedCoord (createEpics.createEpicCmd t b) = some createEpics.REPO) ∧
    (addressedCoord ("gh" :: createGithubIssues.milestoneListCmdQ) = some createGithubIssues.REPO) ∧
    (addressedCoord ("gh" :: createGithubIssues.milestoneListCmd) = some createGithubIssues.REPO) ∧
    (∀ (t b : String) (m : JVal),
        addressedCoord ("gh" :: createGithubIssues.createIssueCmdC t b m) = some createGithubIssues.REPO) ∧
    (∀ c e : Nat, addressedCoord (lih.patchCmd c e) = some "goblinsan/visual-flow") ∧
    (∀ (n : Nat) (b : String), addressedCoord (pidesc.updateCmd n b) = some pidesc.REPO) ∧
    (addressedCoord (createEpics.addLabelCmd (.num 7) "epic") = none) ∧
    (addressedCoord ["gh", "issue", "edit", pyStr (.num 7), "--add-label", "bug"] = none) ∧
    (addressedCoord ["gh", "issue", "view", toString 12, "--json", "body"] = none) ∧
    (addressedCoord ["gh", "issue", "edit", toString 12, "-b", "-"] = none) ∧
    (∀ n : Nat, addressedCoord ["gh", "api", "graphql", "-f", "query=" ++ lig.queryText n] = none) ∧
    (∀ n : Nat, containsStr (lig.queryText n) "owner: \"goblinsan\", name: \"vizail\"" = true) ∧
    (createEpics.REPO = "goblinsan/vizail" ∧ createGithubIssues.REPO = "goblinsan/visual-flow" ∧
      pidesc.REPO = "goblinsan/vizail") :=
  ⟨fun t b => rfl, rfl, rfl, fun t b m => rfl, fun c e => rfl, fun n b => rfl,
   by decide, by decide, by decide, by decide, fun n => rfl, fun n => rfl, rfl, rfl, rfl⟩

/-!  ### Claim C7: labels are follow-up, fire-and-forget calls  -/

theorem labelsLoopRun (w : World) (num : JVal) (ls : List String) :
    ∀ s, ∃ s', createEpics.addLabelsLoop w num ls s = (.ok (), s') ∧
      s'.trace.length = s.trace.length + ls.length := by
  induction ls with
  | nil => intro s; exact ⟨s, rfl, by simp⟩
  | cons l ls ih =>
    intro s
    obtain ⟨s', h, hl⟩ :=
      ih { s with idx := s.idx + 1, trace := s.trace ++ [(createEpics.addLabelCmd num l, none)] }
    refine ⟨s', ?_, ?_⟩
    · show (call w (createEpics.addLabelCmd num l) none >>= fun _ => createEpics.addLabelsLoop w num ls) s = _
      rw [bind_eval, call_eval]
      exact h
    · simp only [List.length_append, List.length_cons, List.length_nil] at hl ⊢
      omega

theorem cgiLabelLoopRun (w : World) (num : JVal) (ls : List String) :
    ∀ s, ∃ s', createGithubIssues.cgiLabelLoop w num ls s = (.ok (), s') ∧
      s'.trace.length = s.trace.length + ls.length := by
  induction ls with
  | nil => intro s; exact ⟨s, rfl, by simp⟩
  | cons l ls ih =>
    intro s
    obtain ⟨s', h, hl⟩ := ih { s with idx := s.idx + 1, trace := s.trace ++ [("gh" :: ["issue", "edit", pyStr num, "--add-label", l], none)] }
    refine ⟨s', ?_, ?_⟩
    · show (createGithubIssues.run_gh w ["issue", "edit", pyStr num, "--add-label", l] >>=
          fun _ => createGithubIssues.cgiLabelLoop w num ls) s = _
      rw [show createGithubIssues.run_gh w ["issue", "edit", pyStr num, "--add-label", l] =
        call w ("gh" :: ["issue", "edit", pyStr num, "--add-label", l]) none from rfl]
      rw [bind_eval, call_eval]
      exact h
    · simp only [List.length_append, List.length_cons, List.length_nil] at hl ⊢
      omega

theorem ceEpicRun (w : World) (s : St) (title body err : String) (em : Bool)
    (labels : List String) (n : Int)
    (h : w s.idx = { exitCode := 0, stdoutEmpty := em,
                     stdout := some (.obj [("number", .num n)]), stderr := err }) :
    ∃ s', createEpics.create_epic w title body labels s = (.ok (.num n), s') ∧
      s'.trace.length = s.trace.length + 1 + labels.length := by
  obtain ⟨s3, hrun, hlen⟩ := labelsLoopRun w (.num n) labels { s with idx := s.idx + 1, trace := s.trace ++ [(createEpics.createEpicCmd title body, none)], log := s.log ++ ["  ✅ Epic #" ++ pyStr (.num n) ++ ": " ++ strTake title 40] }
  refine ⟨s3, ?_, ?_⟩
  · show createEpics.create_epic w title body labels s = _
    simp only [createEpics.create_epic, bind_eval, call_eval, h, liftE_eval, output_eval,
      pyTry_eval, jsonLoads, JVal.getD, List.lookup, pure_eval, bne_self_eq_false,
      Bool.false_eq_true, if_false, beq_self_eq_true, Option.getD]
    rw [hrun]
  · simp only [List.length_append, List.length_cons, List.length_nil] at hlen ⊢
    omega

theorem cgiIssueRun (w : World) (s : St) (title body err : String) (em : Bool) (m : JVal)
    (labels : List String) (n : Int)
    (h : w s.idx = { exitCode := 0, stdoutEmpty := em,
                     stdout := some (.obj [("number", .num n)]), stderr := err }) :
    ∃ s', createGithubIssues.create_issue w title body m labels s = (.ok (.num n), s') ∧
      s'.trace.length = s.trace.length + 1 + labels.length := by
  cases labels with
  | nil =>
    refine ⟨{ s with idx := s.idx + 1, trace := s.trace ++ [("gh" :: createGithubIssues.createIssueCmdC title body m, none)], log := (s.log ++ ["    📋 Creating issue: " ++ strTake title 50 ++ "..."]) ++ ["    ✅ Issue #" ++ pyStr (.num n)] }, ?_, ?_⟩
    · show createGithubIssues.create_issue w title body m [] s = _
      simp only [createGithubIssues.create_issue, createGithubIssues.run_gh, bind_eval, call_eval,
        h, liftE_eval, output_eval, pyTry_eval, jsonLoads, JVal.getD, List.lookup, pure_eval,
        bne_self_eq_false, Bool.false_eq_true, if_false, beq_self_eq_true, Option.getD,
        List.isEmpty_nil, Bool.not_true, if_true]
    · simp
  | cons l ls =>
    obtain ⟨s3, hrun, hlen⟩ := cgiLabelLoopRun w (.num n) (l :: ls) { s with idx := s.idx + 1, trace := s.trace ++ [("gh" :: createGithubIssues.createIssueCmdC title body m, none)], log := (s.log ++ ["    📋 Creating issue: " ++ strTake title 50 ++ "..."]) ++ ["    ✅ Issue #" ++ pyStr (.num n)] }
    refine ⟨s3, ?_, ?_⟩
    · show createGithubIssues.create_issue w title body m (l :: ls) s = _
      simp only [createGithubIssues.create_issue, createGithubIssues.run_gh, bind_eval, call_eval,
        h, liftE_eval, output_eval, pyTry_eval, jsonLoads, JVal.getD, List.lookup, pure_eval,
        bne_self_eq_false, Bool.false_eq_true, if_false, beq_self_eq_true, Option.getD,
        List.isEmpty_cons, Bool.not_false, if_true]
      rw [hrun]
    · simp only [List.length_append, List.length_cons, List.length_nil] at hlen ⊢
      omega

/-- Claim C7: for both creation functions that apply labels
(`create_epic` of `create_epics.py` and `create_issue` of
`create_github_issues.py`), when the creation call succeeds with a JSON
`number` `n`, the function returns `n` and issues exactly one follow-up
call per label — whatever the outcomes of the label calls are (the world
beyond the creation call is arbitrary), a label failure is neither
retried nor propagated and does not change the returned number. -/
theorem claim7_thm (w : World) (s : St) (title body err : String) (em : Bool)
    (m : JVal) (labels : List String) (n : Int)
    (h : w s.idx = { exitCode := 0, stdoutEmpty := em,
                     stdout := some (.obj [("number", .num n)]), stderr := err }) :
    (∃ s', createEpics.create_epic w title body labels s = (.ok (.num n), s') ∧
        s'.trace.length = s.trace.length + 1 + labels.length) ∧
    (∃ s', createGithubIssues.create_issue w title body m labels s = (.ok (.num n), s') ∧
        s'.trace.length = s.trace.length + 1 + labels.length) :=
  ⟨ceEpicRun w s title body err em labels n h, cgiIssueRun w s title body err em m labels n h⟩

/-- Claim C7, witness: under the world `w7` the creation call returns
`{"number": 7}` and the single label call fails with exit code 1; the
creation still returns 7 and exactly two calls were made. -/
theorem claim7_witness :
    (w7 1).exitCode = 1 ∧
      (∃ s', createEpics.create_epic w7 "T" "B" ["epic"] st0 = (.ok (.num 7), s') ∧
        s'.trace.length = 2) := by
  have h := claim7_thm w7 st0 "T" "B" "" false (.num 3) ["epic"] 7 rfl
  refine ⟨by decide, ?_⟩
  obtain ⟨s', hs, hl⟩ := h.1
  exact ⟨s', hs, by rw [hl]; rfl⟩

/-!  ### Claims C8 and C10: the body-rewrite linking pass  -/

theorem callEdit_eval (w : World) (cmd : List String) (inp : String) (t : Nat) (s : St) :
    callEdit w cmd inp t s =
      (.ok (w s.idx),
       { s with
         idx := s.idx + 1,
         trace := s.trace ++ [(cmd, some inp)],
         bodies := if (w s.idx).exitCode == 0 then updBodies s.bodies t inp else s.bodies }) := rfl

/-- Claim C8: the body edit overwrites the issue body with exactly the
string the caller built — for a child issue `n` whose body fetch
succeeds returning `B` and whose edit call succeeds, the loop body of
`link_child_to_parent.py` leaves the issue body exactly
`"**Parent Epic:** #" ++ e ++ "\n\n" ++ B`, and the stdin piped to the edit
command is exactly that string. -/
theorem claim8_thm (w : World) (s : St) (n e : Nat) (B err err2 : String) (em em2 : Bool)
    (o2 : Option JVal)
    (h1 : w s.idx = { exitCode := 0, stdoutEmpty := em,
                      stdout := some (.obj [("body", .str B)]), stderr := err })
    (h2 : w (s.idx + 1) = { exitCode := 0, stdoutEmpty := em2, stdout := o2, stderr := err2 }) :
    (lctp.link_child_step w e n s).1 = .ok () ∧
      (lctp.link_child_step w e n s).2.bodies n =
        some ("**Parent Epic:** #" ++ toString e ++ "\n\n" ++ B) ∧
      (lctp.link_child_step w e n s).2.trace.getLast? =
        some (["gh", "issue", "edit", toString n, "-b", "-"],
          some ("**Parent Epic:** #" ++ toString e ++ "\n\n" ++ B)) := by
  refine ⟨?_, ?_, ?_⟩ <;>
    simp [lctp.link_child_step, lctp.get_issue_body, lctp.update_issue_body, lctp.newBodyStr,
      bind_eval, call_eval, callEdit_eval, h1, h2, liftE_eval, output_eval, pure_eval,
      jsonLoads, JVal.getD, List.lookup, pyStr, updBodies, List.getLast?_concat]

/-- Claim C8, witness: under `w8` the fetch of issue 12 returns the body
`"Original body"` and the edit succeeds; the final stored body of issue
12 is exactly the parent-epic header followed by the fetched body. -/
theorem claim8_witness :
    (lctp.link_child_step w8 45 12 st0).1 = .ok () ∧
      (lctp.link_child_step w8 45 12 st0).2.bodies 12 =
        some "**Parent Epic:** #45\n\nOriginal body" := by
  have h := claim8_thm w8 st0 12 45 "Original body" "" "" false true none rfl rfl
  exact ⟨h.1, by rw [h.2.1]; rfl⟩

/-- Claim C10: when the fetch of a child issue body fails (non-zero exit
of the view command), `get_issue_body` returns the empty string and the
driver still performs the edit — the run completes normally, the edit
call is issued (two calls traced), and the issue body becomes exactly
the parent-epic header with empty remainder, regardless of what the
issue body was before: the prior content is lost rather than left
unchanged. -/
theorem claim10_thm (w : World) (s : St) (n e : Nat) (ec : Int) (em em2 : Bool)
    (o o2 : Option JVal) (err err2 : String)
    (h1 : w s.idx = { exitCode := ec, stdoutEmpty := em, stdout := o, stderr := err })
    (hec : ec ≠ 0)
    (h2 : w (s.idx + 1) = { exitCode := 0, stdoutEmpty := em2, stdout := o2, stderr := err2 }) :
    (lctp.link_child_step w e n s).1 = .ok () ∧
      (lctp.link_child_step w e n s).2.bodies n = some (lctp.newBodyStr e (.str "")) ∧
      (lctp.link_child_step w e n s).2.trace.length = s.trace.length + 2 := by
  refine ⟨?_, ?_, ?_⟩ <;>
    simp [lctp.link_child_step, lctp.get_issue_body, lctp.update_issue_body,
      bind_eval, call_eval, callEdit_eval, h1, h2, hec, liftE_eval, output_eval, pure_eval,
      updBodies]

/-- Claim C10, witness: issue 12 starts with body `"Precious content"`;
under `w10` the view call fails (exit 1) and the edit succeeds; the
final body of issue 12 is only the parent-epic header — the previous
content is gone. -/
theorem claim10_witness :
    st10.bodies 12 = some "Precious content" ∧
      (lctp.link_child_step w10 45 12 st10).2.bodies 12 = some "**Parent Epic:** #45\n\n" ∧
      (lctp.link_child_step w10 45 12 st10).2.bodies 12 ≠ some "Precious content" := by
  have h := claim10_thm w10 st10 12 45 1 true true none none "not found" "" rfl (by decide) rfl
  refine ⟨rfl, ?_, ?_⟩
  · rw [h.2.1]
    rfl
  · rw [h.2.1]
    decide
